import Mathlib

/-!
Verification of the client-side "add user" form logic in
`src/api/templates/addUserForm.js`.

The file is a Jinja-templated JavaScript module.  We embed it shallowly:
the DOM elements touched by the script become fields of a `FormState`
record, the form inputs read at submit time become explicit arguments,
and the server-templated constants (`{{ url_for('register') }}`,
`{{ exceptions.*.identifier }}`, `{{ consts.FIELD_* }}`) — which are not
part of this repository's sources — become parameters gathered in
`TemplateConsts`.
-/

/-- A settings checkbox control inside `div.settings-box`: its `name`
attribute (the symbolic setting name used to index `settingsValues`) and
its `checked` state. -/
structure SettingControl where
  name : String
  checked : Bool
deriving DecidableEq, Repr

/-- Contribution of one control to the mask, embedding
`settingsValues[child.children[0].name] * child.children[0].checked`.
The registry `settingsValues` is a JS object, embedded as a partial map.
If the name is absent, the JS expression is `undefined * checked = NaN`,
and `x |= NaN` leaves `x` unchanged (`ToInt32 NaN = 0`), so the
contribution is `0`.  If present, `bit * true = bit` and
`bit * false = 0`. -/
def settingContribution (settingsValues : String → Option Nat)
    (c : SettingControl) : Nat :=
  match settingsValues c.name with
  | none => 0
  | some bit => if c.checked then bit else 0

/-- The settings-mask loop of the submit listener:
`let settingsValue = 0; for (const child of ...) settingsValue |= ...`.
JS `|=` operates on 32-bit integers; the registered bit values are
powers of two well below `2^31`, so `Nat.lor` is an exact model. -/
def settingsMask (settingsValues : String → Option Nat)
    (controls : List SettingControl) : Nat :=
  controls.foldl (fun acc c => acc ||| settingContribution settingsValues c) 0

/-- Bitwise OR of a list of naturals (used to state mask properties). -/
def orFold (l : List Nat) : Nat := l.foldr (· ||| ·) 0

/-- The bit values of the enabled, registered controls. -/
def enabledBits (reg : String → Option Nat) (cs : List SettingControl) :
    List Nat :=
  (cs.filter (·.checked)).filterMap (fun c => reg c.name)

/-- Server-templated constants interpolated into the script by Jinja.
They are configuration of this repository's server side, not present
under the client sources; each field records which template expression
it stands for. -/
structure TemplateConsts where
  /-- value of the template expression for the register route path. -/
  registerPath : String
  /-- `exceptions.AlreadyExistsError.identifier`. -/
  idAlreadyExists : String
  /-- `exceptions.UsernameTooLong.identifier`. -/
  idTooLong : String
  /-- `exceptions.UsernameTooShort.identifier`. -/
  idTooShort : String
  /-- `exceptions.CannotBeNamedAnonymous.identifier`. -/
  idAnonymous : String
  /-- `exceptions.UsernameInvalidCharacters.identifier`. -/
  idInvalidChars : String
  /-- `consts.FIELD_USERNAME`. -/
  fieldUsername : String
  /-- `consts.FIELD_PERMISSION_GROUP`. -/
  fieldPermissionGroup : String
  /-- `consts.FIELD_SETTINGS`. -/
  fieldSettings : String
deriving Repr

/-- The decoded JSON response dispatched to `addUserSuccess`: the
`success` flag selects the branch, a success carries the slot token
read from `data.{{ consts.FIELD_DATA }}`, a failure carries
`data.reason`. -/
inductive SubmissionResult where
  | success (token : String)
  | failure (reason : String)
deriving DecidableEq, Repr

/-- The `switch (data.reason)` of the failure branch of
`addUserSuccess`: each `case` compares `data.reason` against one
templated exception identifier by exact string equality, in source
order, and the `default` arm yields the generic fallback text. -/
def failureMessage (T : TemplateConsts) (reason : String) : String :=
  if reason = T.idAlreadyExists then "Nutzername wird bereits verwendet."
  else if reason = T.idTooLong then "Nutzername muss kürzer sein."
  else if reason = T.idTooShort then "Nutzername muss länger sein."
  else if reason = T.idAnonymous then "Dein Nutzername kann nicht \x27Anonymous\x27 sein."
  else if reason = T.idInvalidChars then "Nutzername muss aus den Zeichen a-z, A-Z, 0-9, _ und - bestehen."
  else "Konnte nicht erstellt werden."

/-- The mutable page state the script touches: the two `window` globals,
the message box text, and the inline `style.display` visibility of the
message box and of its copy-link element (modelled as a Bool: `true`
for `style.display = ""`, i.e. shown).  `clipboard` models the system
clipboard written by `navigator.clipboard.writeText`. -/
structure FormState where
  /-- `window.lastUsername`, initially the JS value `null`. -/
  lastUsername : Option String
  /-- `addUserMessageBoxText.textContent`. -/
  messageText : String
  /-- visibility of `addUserMessageBox` (the result panel). -/
  boxVisible : Bool
  /-- visibility of `addUserMessageBoxLinkElm` (the copy-link element). -/
  linkVisible : Bool
  /-- `window.addUserMessageBoxLink`, the stored registration URL. -/
  link : String
  /-- clipboard contents, `none` before any write. -/
  clipboard : Option String
deriving DecidableEq, Repr

/-- Page state right after the script's top-level statements ran:
`window.lastUsername = null` and `window.addUserMessageBoxLink = ""`;
the message box and its copy-link element start hidden in the page
template, and nothing has been written to the clipboard. -/
def initState : FormState :=
  { lastUsername := none
    messageText := ""
    boxVisible := false
    linkVisible := false
    link := ""
    clipboard := none }

/-- JS string coercion applied by `lastUsername + " was added."`:
the global is `null` until the first submit, and `null + s` renders as
`"null" + s`. -/
def jsStringOfNullable (v : Option String) : String :=
  match v with
  | none => "null"
  | some s => s

/-- `addUserSuccess(data)`: on success set the message text from
`lastUsername`, show the copy-link element and store the registration
URL `"https://" + location.host + registerPath + "?user_slot=" + token`;
on failure set the message text via the reason switch.  Both branches
end with `addUserMessageBox.style.display = ""`. -/
def addUserSuccess (T : TemplateConsts) (host : String)
    (data : SubmissionResult) (s : FormState) : FormState :=
  match data with
  | .success token =>
      { s with
        messageText := jsStringOfNullable s.lastUsername ++ " was added."
        linkVisible := true
        link := "https://" ++ host ++ T.registerPath ++ "?user_slot=" ++ token
        boxVisible := true }
  | .failure reason =>
      { s with
        messageText := failureMessage T reason
        boxVisible := true }

/-- `copyAddUserMessageLink(event)`: writes the stored registration URL
to the clipboard, unconditionally. -/
def copyAddUserMessageLink (s : FormState) : FormState :=
  { s with clipboard := some s.link }

/-- The JSON request body built by the submit listener, before
serialization: exactly three fields. -/
structure AddUserRequest where
  /-- `{{ consts.FIELD_USERNAME }}: lastUsername`. -/
  username : String
  /-- `{{ consts.FIELD_PERMISSION_GROUP }}: Number(addUserPgroupInput.value)`.
  The permission-group input is numeric; its converted value is embedded
  as an integer. -/
  permission_group : Int
  /-- `{{ consts.FIELD_SETTINGS }}: settingsValue`. -/
  settings : Nat
deriving DecidableEq, Repr

/-- The `"submit"` listener on `addUserButton`, up to the `fetch` call:
sets the status text to `"..."`, captures the username input into
`window.lastUsername`, computes the settings mask, and assembles the
request body sent to the add-user endpoint.  Returns the updated page
state together with the request body. -/
def onSubmit (settingsValues : String → Option Nat)
    (usernameValue : String) (pgroupValue : Int)
    (controls : List SettingControl) (s : FormState) :
    FormState × AddUserRequest :=
  let s' := { s with messageText := "...", lastUsername := some usernameValue }
  let settingsValue := settingsMask settingsValues controls
  (s', { username := usernameValue
         permission_group := pgroupValue
         settings := settingsValue })

/-- One user-visible operation of the component. -/
inductive FormOp where
  | submit (usernameValue : String) (pgroupValue : Int)
      (controls : List SettingControl)
  | render (data : SubmissionResult)
  | copyLink
deriving DecidableEq, Repr

/-- Effect of one operation on the page state. -/
def applyOp (T : TemplateConsts) (host : String)
    (settingsValues : String → Option Nat) (s : FormState) :
    FormOp → FormState
  | .submit u p cs => (onSubmit settingsValues u p cs s).1
  | .render d => addUserSuccess T host d s
  | .copyLink => copyAddUserMessageLink s

/-- State after a sequence of operations starting from the initial
page state. -/
def runOps (T : TemplateConsts) (host : String)
    (settingsValues : String → Option Nat) (ops : List FormOp) : FormState :=
  ops.foldl (applyOp T host settingsValues) initState

/-- Lowercase hexadecimal digit, as used by `JSON.stringify` for
`\uXXXX` escapes. -/
def hexDigitChar (n : Nat) : Char :=
  if n < 10 then Char.ofNat (48 + n) else Char.ofNat (87 + n)

/-- Escaping of one character inside a JSON string literal, following
`JSON.stringify`: quote and backslash are escaped, the five short
control escapes are used where they exist, remaining control
characters become `\u00XX`, and every other character is emitted
verbatim. -/
def jsonEscapeChar (c : Char) : String :=
  if c = '"' then "\\\""
  else if c = '\\' then "\\\\"
  else if c = '\x08' then "\\b"
  else if c = '\t' then "\\t"
  else if c = '\n' then "\\n"
  else if c = '\x0c' then "\\f"
  else if c = '\r' then "\\r"
  else if c.toNat < 32 then
    "\\u00" ++ String.singleton (hexDigitChar (c.toNat / 16))
      ++ String.singleton (hexDigitChar (c.toNat % 16))
  else String.singleton c

/-- A JSON string literal for `s`, double-quoted and escaped. -/
def jsonQuote (s : String) : String :=
  "\"" ++ String.join (s.data.map jsonEscapeChar) ++ "\""

/-- `JSON.stringify` of the three-field object built in the submit
listener.  The object literal has exactly the three keys
`consts.FIELD_USERNAME`, `consts.FIELD_PERMISSION_GROUP` and
`consts.FIELD_SETTINGS`, in that source order, so the serialized body
is their key/value pairs in that order and nothing else. -/
def stringifyAddUserBody (T : TemplateConsts) (r : AddUserRequest) : String :=
  "\x7b" ++ jsonQuote T.fieldUsername ++ ":" ++ jsonQuote r.username
    ++ "," ++ jsonQuote T.fieldPermissionGroup ++ ":" ++ toString r.permission_group
    ++ "," ++ jsonQuote T.fieldSettings ++ ":" ++ toString r.settings
    ++ "\x7d"

/-- `true` exactly for the operation that renders a success response
(the only operation whose effect writes `window.addUserMessageBoxLink`). -/
def isSuccessRender : FormOp → Bool
  | .render (.success _) => true
  | _ => false

/-- Concrete values for the server-templated constants, used to
instantiate theorems on closed inputs.  The identifier strings follow
the exception class names of the templates; the field keys are the
ones of the spec's concrete scenario. -/
def TDemo : TemplateConsts :=
  { registerPath := "/register"
    idAlreadyExists := "AlreadyExistsError"
    idTooLong := "UsernameTooLong"
    idTooShort := "UsernameTooShort"
    idAnonymous := "CannotBeNamedAnonymous"
    idInvalidChars := "UsernameInvalidCharacters"
    fieldUsername := "username"
    fieldPermissionGroup := "permission_group"
    fieldSettings := "settings" }

/-- A concrete settings registry with two registered names, bit values
`1` and `4`. -/
def regDemo : String → Option Nat := fun n =>
  if n = "darkmode" then some 1
  else if n = "beta" then some 4
  else none

lemma orFold_nil : orFold [] = 0 := rfl

lemma orFold_cons (a : Nat) (l : List Nat) :
    orFold (a :: l) = a ||| orFold l := rfl

lemma foldl_lor_eq (l : List Nat) (a : Nat) :
    l.foldl (· ||| ·) a = a ||| orFold l := by
  induction l generalizing a with
  | nil => simp [orFold]
  | cons x xs ih =>
      simp only [List.foldl_cons, orFold_cons, ih, Nat.or_assoc]

lemma settingsMask_eq_orFold (reg : String → Option Nat)
    (cs : List SettingControl) :
    settingsMask reg cs = orFold (cs.map (settingContribution reg)) := by
  have h : ∀ a : Nat, cs.foldl (fun acc c => acc ||| settingContribution reg c) a
      = (cs.map (settingContribution reg)).foldl (· ||| ·) a := by
    intro a
    induction cs generalizing a with
    | nil => rfl
    | cons x xs ih => simp [List.foldl_cons, ih]
  rw [settingsMask, h 0, foldl_lor_eq, Nat.zero_or]

lemma orFold_perm {l l' : List Nat} (h : l.Perm l') : orFold l = orFold l' := by
  induction h with
  | nil => rfl
  | cons x _ ih => simp [orFold_cons, ih]
  | swap x y l =>
      simp only [orFold_cons, ← Nat.or_assoc]
      rw [Nat.or_comm y x]
  | trans _ _ ih₁ ih₂ => exact ih₁.trans ih₂

lemma settingsMask_eq_enabledBits (reg : String → Option Nat)
    (cs : List SettingControl) :
    settingsMask reg cs = orFold (enabledBits reg cs) := by
  rw [settingsMask_eq_orFold]
  induction cs with
  | nil => rfl
  | cons c cs ih =>
      simp only [List.map_cons, orFold_cons, ih, enabledBits]
      by_cases hc : c.checked
      · cases hreg : reg c.name with
        | none =>
            simp [settingContribution, hreg, hc, enabledBits]
        | some b =>
            simp [settingContribution, hreg, hc, enabledBits, orFold_cons]
      · simp [settingContribution, hc, enabledBits]
        cases hreg : reg c.name <;> simp

lemma orFold_append (l₁ l₂ : List Nat) :
    orFold (l₁ ++ l₂) = orFold l₁ ||| orFold l₂ := by
  induction l₁ with
  | nil => simp [orFold]
  | cons x xs ih => simp [orFold_cons, ih, Nat.or_assoc]

lemma settingsMask_filter_registered (reg : String → Option Nat)
    (cs : List SettingControl) :
    settingsMask reg cs
      = settingsMask reg (cs.filter fun c => (reg c.name).isSome) := by
  rw [settingsMask_eq_orFold, settingsMask_eq_orFold]
  induction cs with
  | nil => rfl
  | cons c cs ih =>
      cases hreg : reg c.name with
      | none =>
          simp [List.filter_cons, hreg, settingContribution, orFold_cons, ih]
      | some b =>
          simp [List.filter_cons, hreg, settingContribution, orFold_cons, ih]

lemma applyOp_link_of_not_success (T : TemplateConsts) (host : String)
    (reg : String → Option Nat) (s : FormState) (op : FormOp)
    (hop : isSuccessRender op = false) :
    (applyOp T host reg s op).link = s.link := by
  cases op with
  | submit u p cs => rfl
  | copyLink => rfl
  | render d =>
      cases d with
      | success t => simp [isSuccessRender] at hop
      | failure r => rfl

lemma foldl_link_of_no_success (T : TemplateConsts) (host : String)
    (reg : String → Option Nat) :
    ∀ ops : List FormOp, (∀ op ∈ ops, isSuccessRender op = false) →
      ∀ s : FormState, (ops.foldl (applyOp T host reg) s).link = s.link := by
  intro ops
  induction ops with
  | nil => intro _ s; rfl
  | cons op ops ih =>
      intro h s
      have hop : isSuccessRender op = false := h op (List.mem_cons_self op ops)
      have hrest := ih (fun o ho => h o (List.mem_cons_of_mem op ho))
      rw [List.foldl_cons, hrest, applyOp_link_of_not_success T host reg s op hop]

/-- Claim C1: the settings mask computed in the submit handler equals
the bitwise OR of exactly the registered bit values of the enabled
controls; it is invariant under reordering of the controls, is `0` when
no control is enabled, and is the OR of all registered bit values when
every control is enabled. -/
theorem settingsMask_spec_c1 (reg : String → Option Nat)
    (cs cs' : List SettingControl) (hperm : cs.Perm cs') :
    settingsMask reg cs = orFold (enabledBits reg cs)
    ∧ settingsMask reg cs = settingsMask reg cs'
    ∧ ((∀ c ∈ cs, c.checked = false) → settingsMask reg cs = 0)
    ∧ ((∀ c ∈ cs, c.checked = true) →
        settingsMask reg cs = orFold (cs.filterMap fun c => reg c.name)) := by
  refine ⟨settingsMask_eq_enabledBits reg cs, ?_, ?_, ?_⟩
  · rw [settingsMask_eq_enabledBits, settingsMask_eq_enabledBits]
    exact orFold_perm ((hperm.filter _).filterMap _)
  · intro h
    rw [settingsMask_eq_enabledBits, enabledBits,
      List.filter_eq_nil_iff.mpr (by simpa using h)]
    rfl
  · intro h
    rw [settingsMask_eq_enabledBits, enabledBits,
      List.filter_eq_self.mpr (by simpa using h)]

/-- Witness for C1 on a concrete registry and control lists: the mask
is order-independent and equals `1 ||| 4 = 5` with both controls
enabled. -/
theorem settingsMask_spec_c1_witness :
    settingsMask regDemo [⟨"darkmode", true⟩, ⟨"beta", true⟩]
      = settingsMask regDemo [⟨"beta", true⟩, ⟨"darkmode", true⟩]
    ∧ settingsMask regDemo [⟨"darkmode", true⟩, ⟨"beta", true⟩]
      = orFold ([⟨"darkmode", true⟩, ⟨"beta", true⟩].filterMap
          fun c : SettingControl => regDemo c.name)
    ∧ settingsMask regDemo [⟨"darkmode", true⟩, ⟨"beta", true⟩] = 5 := by
  have h := settingsMask_spec_c1 regDemo
    [⟨"darkmode", true⟩, ⟨"beta", true⟩]
    [⟨"beta", true⟩, ⟨"darkmode", true⟩] (by decide)
  exact ⟨h.2.1, h.2.2.2 (by decide), by decide⟩

/-- Claim C2: with pairwise-distinct exception identifiers, the failure
branch maps each of the five known reason codes to its distinct exact
message, and any other reason string (the empty string included) to the
generic fallback message. -/
theorem failureMessage_spec_c2 (T : TemplateConsts)
    (hids : ([T.idAlreadyExists, T.idTooLong, T.idTooShort, T.idAnonymous,
        T.idInvalidChars] : List String).Pairwise (· ≠ ·)) :
    failureMessage T T.idAlreadyExists = "Nutzername wird bereits verwendet."
    ∧ failureMessage T T.idTooLong = "Nutzername muss kürzer sein."
    ∧ failureMessage T T.idTooShort = "Nutzername muss länger sein."
    ∧ failureMessage T T.idAnonymous
        = "Dein Nutzername kann nicht \x27Anonymous\x27 sein."
    ∧ failureMessage T T.idInvalidChars
        = "Nutzername muss aus den Zeichen a-z, A-Z, 0-9, _ und - bestehen."
    ∧ (["Nutzername wird bereits verwendet.", "Nutzername muss kürzer sein.",
        "Nutzername muss länger sein.",
        "Dein Nutzername kann nicht \x27Anonymous\x27 sein.",
        "Nutzername muss aus den Zeichen a-z, A-Z, 0-9, _ und - bestehen."]
          : List String).Pairwise (· ≠ ·)
    ∧ ∀ r : String,
        r ∉ ([T.idAlreadyExists, T.idTooLong, T.idTooShort, T.idAnonymous,
          T.idInvalidChars] : List String) →
        failureMessage T r = "Konnte nicht erstellt werden." := by
  have hA := (List.pairwise_cons.mp hids).1
  have hrest1 := (List.pairwise_cons.mp hids).2
  have hL := (List.pairwise_cons.mp hrest1).1
  have hrest2 := (List.pairwise_cons.mp hrest1).2
  have hS := (List.pairwise_cons.mp hrest2).1
  have hrest3 := (List.pairwise_cons.mp hrest2).2
  have hN := (List.pairwise_cons.mp hrest3).1
  have nAL : T.idTooLong ≠ T.idAlreadyExists := (hA _ (by simp)).symm
  have nAS : T.idTooShort ≠ T.idAlreadyExists := (hA _ (by simp)).symm
  have nAN : T.idAnonymous ≠ T.idAlreadyExists := (hA _ (by simp)).symm
  have nAC : T.idInvalidChars ≠ T.idAlreadyExists := (hA _ (by simp)).symm
  have nLS : T.idTooShort ≠ T.idTooLong := (hL _ (by simp)).symm
  have nLN : T.idAnonymous ≠ T.idTooLong := (hL _ (by simp)).symm
  have nLC : T.idInvalidChars ≠ T.idTooLong := (hL _ (by simp)).symm
  have nSN : T.idAnonymous ≠ T.idTooShort := (hS _ (by simp)).symm
  have nSC : T.idInvalidChars ≠ T.idTooShort := (hS _ (by simp)).symm
  have nNC : T.idInvalidChars ≠ T.idAnonymous := (hN _ (by simp)).symm
  refine ⟨by simp [failureMessage], by simp [failureMessage, nAL],
    by simp [failureMessage, nAS, nLS],
    by simp [failureMessage, nAN, nLN, nSN],
    by simp [failureMessage, nAC, nLC, nSC, nNC], by decide, ?_⟩
  intro r hr
  simp only [List.mem_cons, List.not_mem_nil, or_false, not_or] at hr
  obtain ⟨n1, n2, n3, n4, n5⟩ := hr
  simp [failureMessage, n1, n2, n3, n4, n5]

/-- Witness for C2 at concrete identifier values: a known reason code
renders its exact message and an unknown one renders the fallback. -/
theorem failureMessage_spec_c2_witness :
    failureMessage TDemo "UsernameTooLong" = "Nutzername muss kürzer sein."
    ∧ failureMessage TDemo "" = "Konnte nicht erstellt werden." := by
  have h := failureMessage_spec_c2 TDemo (by decide)
  exact ⟨h.2.1, h.2.2.2.2.2.2 "" (by decide)⟩

/-- Claim C3: on a successful response the stored registration link is
exactly `"https://" ++ host ++ registerPath ++ "?user_slot=" ++ token`
for arbitrary host and token strings; in particular it always starts
with the hardcoded `https` scheme and ends with the slot token taken
verbatim from the response. -/
theorem addUserSuccess_link_c3 (T : TemplateConsts) (host token : String)
    (s : FormState) :
    (addUserSuccess T host (.success token) s).link
      = "https://" ++ host ++ T.registerPath ++ "?user_slot=" ++ token
    ∧ (∃ rest : String,
        (addUserSuccess T host (.success token) s).link = "https://" ++ rest)
    ∧ (∃ pre : String,
        (addUserSuccess T host (.success token) s).link = pre ++ token) := by
  refine ⟨rfl, ⟨host ++ T.registerPath ++ "?user_slot=" ++ token, ?_⟩,
    ⟨"https://" ++ host ++ T.registerPath ++ "?user_slot=", rfl⟩⟩
  simp [addUserSuccess, String.append_assoc]

/-- Claim C4: on every submit the request body has exactly the three
fields username / permission-group / settings holding the captured
username, the numeric permission-group value and the computed mask; at
username `alice`, permission group `2` and enabled bits `1` and `4`,
the serialized body is precisely the spec's concrete JSON string. -/
theorem onSubmit_body_c4 :
    (∀ (reg : String → Option Nat) (u : String) (p : Int)
        (cs : List SettingControl) (s : FormState),
      (onSubmit reg u p cs s).2
        = ⟨u, p, settingsMask reg cs⟩)
    ∧ stringifyAddUserBody TDemo
        ((onSubmit regDemo "alice" 2
          [⟨"darkmode", true⟩, ⟨"beta", true⟩] initState).2)
      = "\x7b\"username\":\"alice\",\"permission_group\":2,\"settings\":5\x7d" := by
  exact ⟨fun reg u p cs s => rfl, by decide⟩

/-- Claim C5: a success response renders the last submitted username
followed by `" was added."`; submitting username `u` and then receiving
a success renders `u ++ " was added."`. -/
theorem addUserSuccess_message_c5 (T : TemplateConsts) (host token u : String)
    (s : FormState) (h : s.lastUsername = some u) :
    (addUserSuccess T host (.success token) s).messageText = u ++ " was added."
    ∧ ∀ (reg : String → Option Nat) (p : Int) (cs : List SettingControl)
        (s0 : FormState),
      (addUserSuccess T host (.success token)
        ((onSubmit reg u p cs s0).1)).messageText = u ++ " was added." := by
  constructor
  · simp [addUserSuccess, jsStringOfNullable, h]
  · intro reg p cs s0
    rfl

/-- Witness for C5: submitting `alice` and then receiving a success
renders `alice was added.`. -/
theorem addUserSuccess_message_c5_witness :
    (addUserSuccess TDemo "example.com" (.success "abc123")
      ((onSubmit regDemo "alice" 2 [] initState).1)).messageText
      = "alice was added." := by
  exact (addUserSuccess_message_c5 TDemo "example.com" "abc123" "alice"
    ((onSubmit regDemo "alice" 2 [] initState).1) rfl).1

/-- Claim C6: a control whose symbolic name is absent from the settings
registry contributes nothing to the mask, enabled or not: dropping it
leaves the mask unchanged, and in general the mask equals the mask over
only the registered controls. -/
theorem settingsMask_unregistered_c6 (reg : String → Option Nat)
    (c : SettingControl) (l₁ l₂ : List SettingControl)
    (h : reg c.name = none) :
    settingsMask reg (l₁ ++ c :: l₂) = settingsMask reg (l₁ ++ l₂)
    ∧ ∀ cs : List SettingControl,
        settingsMask reg cs
          = settingsMask reg (cs.filter fun c' => (reg c'.name).isSome) := by
  refine ⟨?_, fun cs => settingsMask_filter_registered reg cs⟩
  rw [settingsMask_filter_registered reg (l₁ ++ c :: l₂),
    settingsMask_filter_registered reg (l₁ ++ l₂)]
  have hc : ((reg c.name).isSome = false) := by simp [h]
  simp [List.filter_append, List.filter_cons, hc]

/-- Witness for C6: an enabled control named `ghost`, absent from the
concrete registry, leaves the mask at `5`. -/
theorem settingsMask_unregistered_c6_witness :
    settingsMask regDemo
        [⟨"darkmode", true⟩, ⟨"ghost", true⟩, ⟨"beta", true⟩]
      = settingsMask regDemo [⟨"darkmode", true⟩, ⟨"beta", true⟩]
    ∧ settingsMask regDemo
        [⟨"darkmode", true⟩, ⟨"ghost", true⟩, ⟨"beta", true⟩] = 5 := by
  have h := settingsMask_unregistered_c6 regDemo ⟨"ghost", true⟩
    [⟨"darkmode", true⟩] [⟨"beta", true⟩] (by decide)
  exact ⟨h.1, by decide⟩

/-- Claim C7: rendering any result, success or failure, makes the
result panel visible, and no operation of the component (submit, render
or copy-link) ever turns a visible panel back to hidden. -/
theorem resultPanel_visible_c7 (T : TemplateConsts) (host : String)
    (reg : String → Option Nat) (d : SubmissionResult) (s : FormState) :
    (addUserSuccess T host d s).boxVisible = true
    ∧ ∀ (op : FormOp) (s' : FormState), s'.boxVisible = true →
        (applyOp T host reg s' op).boxVisible = true := by
  constructor
  · cases d <;> rfl
  · intro op s' h
    cases op with
    | submit u p cs => simpa [applyOp, onSubmit] using h
    | render d' => cases d' <;> rfl
    | copyLink => simpa [applyOp, copyAddUserMessageLink] using h

/-- Witness for C7: rendering a failure shows the panel, and a
subsequent copy-link operation keeps it shown. -/
theorem resultPanel_visible_c7_witness :
    (addUserSuccess TDemo "example.com" (.failure "X") initState).boxVisible
      = true
    ∧ (applyOp TDemo "example.com" regDemo
        (addUserSuccess TDemo "example.com" (.failure "X") initState)
        .copyLink).boxVisible = true := by
  have h := resultPanel_visible_c7 TDemo "example.com" regDemo
    (.failure "X") initState
  exact ⟨h.1, h.2 .copyLink _ h.1⟩

/-- Claim C8: the stored registration URL starts out as the empty
string and is only changed by a success render, so invoking
copy-link after any operation sequence containing no success response
writes the empty string to the clipboard. -/
theorem copyLink_before_success_c8 (T : TemplateConsts) (host : String)
    (reg : String → Option Nat) (ops : List FormOp)
    (h : ∀ op ∈ ops, isSuccessRender op = false) :
    initState.link = ""
    ∧ (runOps T host reg ops).link = ""
    ∧ (runOps T host reg (ops ++ [.copyLink])).clipboard = some "" := by
  have hlink : (runOps T host reg ops).link = "" :=
    foldl_link_of_no_success T host reg ops h initState
  refine ⟨rfl, hlink, ?_⟩
  rw [runOps, List.foldl_append]
  show (copyAddUserMessageLink (runOps T host reg ops)).clipboard = some ""
  rw [copyAddUserMessageLink, hlink]

/-- Witness for C8: after a submit and a failure render, copy-link
writes the empty string. -/
theorem copyLink_before_success_c8_witness :
    (runOps TDemo "example.com" regDemo
      ([.submit "alice" 2 [⟨"darkmode", true⟩],
        .render (.failure "AlreadyExistsError")] ++ [.copyLink])).clipboard
      = some "" := by
  exact (copyLink_before_success_c8 TDemo "example.com" regDemo
    [.submit "alice" 2 [⟨"darkmode", true⟩],
      .render (.failure "AlreadyExistsError")] (by decide)).2.2

/-- Counterexample to C9 as stated: the status text written by the
submit handler is not the single horizontal-ellipsis character. -/
theorem submit_placeholder_c9_counterexample :
    ¬ ((onSubmit regDemo "alice" 2 [] initState).1.messageText = "…") := by
  decide

/-- Claim C9 (amended): on every submit, before the request is issued,
the visible status text is set to the placeholder `"..."` — three
ASCII full-stop characters, not a single horizontal-ellipsis
character. -/
theorem submit_placeholder_c9 (reg : String → Option Nat) (u : String)
    (p : Int) (cs : List SettingControl) (s : FormState) :
    (onSubmit reg u p cs s).1.messageText = "..." := rfl

/-- Claim C10: a failure render leaves the stored registration link and
the copy-link element's visibility unchanged; after a success followed
by a failure, the success's URL is still what copy-link writes and the
link element is still shown. -/
theorem failure_preserves_link_c10 (T : TemplateConsts) (host r : String)
    (s : FormState) :
    (addUserSuccess T host (.failure r) s).link = s.link
    ∧ (addUserSuccess T host (.failure r) s).linkVisible = s.linkVisible
    ∧ ∀ tok r' : String,
        (addUserSuccess T host (.failure r')
            (addUserSuccess T host (.success tok) s)).link
          = "https://" ++ host ++ T.registerPath ++ "?user_slot=" ++ tok
        ∧ (addUserSuccess T host (.failure r')
            (addUserSuccess T host (.success tok) s)).linkVisible = true
        ∧ (copyAddUserMessageLink (addUserSuccess T host (.failure r')
            (addUserSuccess T host (.success tok) s))).clipboard
          = some ("https://" ++ host ++ T.registerPath ++ "?user_slot=" ++ tok) := by
  exact ⟨rfl, rfl, fun tok r' => ⟨rfl, rfl, rfl⟩⟩
